import Mathlib

/-!
# pdscan: the SQL adapter (`internal/sql_adapter.go`)

A shallow embedding of `SqlAdapter.FetchTables`, `SqlAdapter.FetchTableData`,
`quoteIdent` and `tsmSystemRowsSupported`, and the properties of the sampling
adapter that follow from the code.

Conventions of the embedding:

* a Go `string` is a Lean `String`; a Go `[]byte` cell buffer is an
  `Option String` (`none` is the nil slice, `some s` the bytes, written as the
  text they spell), so that the conversion `string(raw)` keeps the bytes as they are;
* a Go `int` is an `Int`;
* the connection (`*sqlx.DB`) is a record of what the database answers: nothing
  in the adapter depends on more than those answers;
* a call that reaches `abort(err)` ends there, with the error (`Except`).
-/

set_option autoImplicit false

namespace Pdscan

/-! ## Data model -/

/-- Modelled from the spec: the `table` struct (the spec's TableRef), declared
outside `sql_adapter.go`: a schema (empty for SQLite) and a table name, filled
by `db.Select` from the columns `table_schema` and `table_name`. -/
structure table where
  Schema : String
  Name : String
deriving DecidableEq

/-- Modelled from the spec: `abort`, the fatal-error collaborator, declared
outside `sql_adapter.go`. Every failure is terminal for the current operation:
the call ends with the error value it passed to `abort`. The constructor records
which of the five `abort(err)` sites of the file was reached. -/
inductive AbortError where
  /-- `db.Select` failed in `FetchTables` (line 52). -/
  | connection (err : String)
  /-- `row.Scan(&count)` failed in `tsmSystemRowsSupported` (line 156). -/
  | capabilityCheck (err : String)
  /-- `db.Query(sql)` failed (line 85). -/
  | query (err : String)
  /-- `rows.ColumnTypes()` failed (line 91). -/
  | columnTypes (err : String)
  /-- `rows.Scan(dest...)` failed (line 125). -/
  | scan (err : String)
deriving DecidableEq

/-- A `reflect.Type` as far as the adapter looks at it: the text its `String()`
method returns (`"string"`, `"int64"`, `"sql.RawBytes"`, ...). -/
structure ReflectType where
  name : String
deriving DecidableEq

/-- The method `reflect.Type.String()`. -/
def ReflectType.String (t : ReflectType) : String := t.name

/-- A `*sql.ColumnType`: the column name and the scan type the driver reports,
`none` when `col.ScanType()` is nil. -/
structure ColumnType where
  Name : String
  ScanType : Option ReflectType
deriving DecidableEq

/-- A cell buffer (`[]byte`) after `rows.Scan`: `none` is the nil slice that
`Scan` stores for SQL NULL, `some s` holds the bytes of the value. -/
abbrev RawBytes := Option String

/-- An open result set (`*sql.Rows`), as the sequence of answers it gives:
`ColumnTypes` is what `rows.ColumnTypes()` returns; `scans` has one entry for
each time `rows.Next()` returns true, the values `rows.Scan` then finds or the
error it meets; `Err` is what `rows.Err()` would report once `rows.Next()` has
returned false: `some e` when the iteration stopped on a failure, `none` when it
reached the last row. -/
structure Rows where
  ColumnTypes : Except String (List ColumnType)
  scans : List (Except String (List RawBytes))
  Err : Option String

/-- A row of the SQLite catalog `sqlite_master`: the columns `type` and `name`. -/
structure MasterRow where
  type : String
  name : String
deriving DecidableEq

/-- A row of the view `information_schema.tables`: the columns `table_schema`
and `table_name`. -/
structure TablesRow where
  table_schema : String
  table_name : String
deriving DecidableEq

/-- The connection (`*sqlx.DB`): the driver name, the answers of the database to
`QueryRow(..).Scan(&count)` and to `Query(..)`, and, for `Select`, the catalog
contents, the collation that `ORDER BY` sorts text with and the failure (if any)
the introspection statement meets. -/
structure DB where
  DriverName : String
  QueryRowCount : String → Except String Int
  Query : String → Except String Rows
  sqlite_master : List MasterRow
  information_schema_tables : List TablesRow
  collation : String → String → Bool
  selectFailure : Option String

/-- The adapter: `type SqlAdapter struct { DB *sqlx.DB }`. -/
structure SqlAdapter where
  DB : DB

/-! ## Library functions the adapter calls -/

/-- An operand of `fmt.Sprintf`: a string (for `%s`) or an int (for `%d`). -/
inductive FmtArg where
  | str (s : String)
  | int (n : Int)

/-- The formatting loop of `fmt.Sprintf` for the two verbs the adapter uses:
`%s` writes the next operand, a string, as it is; `%d` writes the next operand,
an int, in decimal; every other character of the format is copied. The operands
are not scanned for verbs. (A verb without an operand of its kind, which the
adapter never writes, is copied too.) -/
def sprintfChars : List Char → List FmtArg → List Char
  | [], _ => []
  | '%' :: 's' :: rest, FmtArg.str s :: args => s.data ++ sprintfChars rest args
  | '%' :: 'd' :: rest, FmtArg.int n :: args => (toString n).data ++ sprintfChars rest args
  | c :: rest, args => c :: sprintfChars rest args

/-- The function `fmt.Sprintf(format, args...)`. -/
def Sprintf (format : String) (args : List FmtArg) : String :=
  String.mk (sprintfChars format.data args)

/-- Doubles every double-quote character of an identifier and keeps every other
character. -/
def doubleQuotes : List Char → List Char
  | [] => []
  | c :: cs => if c = '"' then '"' :: '"' :: doubleQuotes cs else c :: doubleQuotes cs

/-- Modelled from the spec: `pq.QuoteIdentifier`, of the PostgreSQL driver
package, which is not part of `sql_adapter.go`: "quote the identifier, doubling
any embedded quote characters". -/
def pq.QuoteIdentifier (name : String) : String :=
  String.mk ('"' :: doubleQuotes name.data ++ ['"'])

/-- What `rows.Scan(dest...)` leaves in `rawResult` for the current row, with
`n` destinations: the error of the row if it cannot be decoded, the error of
`database/sql` if the row does not have `n` values (a row of a result set with
`n` columns has `n`), the values otherwise. -/
def Rows.Scan (n : Nat) (row : Except String (List RawBytes)) : Except String (List RawBytes) :=
  match row with
  | Except.error err => Except.error err
  | Except.ok values =>
    if values.length = n then Except.ok values
    else Except.error "sql: expected destination arguments in Scan"

/-- The SQLite introspection statement
`SELECT '' AS table_schema, name AS table_name FROM sqlite_master
 WHERE type = 'table' AND name != 'sqlite_sequence' ORDER BY name`. -/
def sqliteTables (db : DB) : List table :=
  ((db.sqlite_master.filter
      (fun r => decide (r.type = "table") && decide (r.name ≠ "sqlite_sequence"))).insertionSort
      (fun r s => db.collation r.name s.name = true)).map
    (fun r => { Schema := "", Name := r.name })

/-- The order of `ORDER BY table_schema, table_name`: by schema, and by name
within a schema. -/
def schemaThenName (db : DB) (r s : TablesRow) : Prop :=
  (db.collation r.table_schema s.table_schema = true ∧
      db.collation s.table_schema r.table_schema = false) ∨
    (db.collation r.table_schema s.table_schema = true ∧
      db.collation r.table_name s.table_name = true)

instance (db : DB) : DecidableRel (schemaThenName db) :=
  fun _ _ => by unfold schemaThenName; exact inferInstance

/-- The introspection statements over the information schema:
`SELECT table_schema, table_name FROM information_schema.tables
 WHERE table_schema NOT IN (excluded...) ORDER BY table_schema, table_name`. -/
def informationSchemaTables (db : DB) (excluded : List String) : List table :=
  ((db.information_schema_tables.filter
      (fun r => decide (r.table_schema ∉ excluded))).insertionSort (schemaThenName db)).map
    (fun r => { Schema := r.table_schema, Name := r.table_name })

/-- The call `db.Select(&tables, query)`: the rows the database answers the
statement with, as `table` values, or the error. The three statements of
`FetchTables` are answered from the catalog; any other text is not a statement
the adapter sends. -/
def DB.Select (db : DB) (query : String) : Except String (List table) :=
  match db.selectFailure with
  | some err => Except.error err
  | none =>
    if query = "SELECT '' AS table_schema, name AS table_name FROM sqlite_master WHERE type = 'table' AND name != 'sqlite_sequence' ORDER BY name" then
      Except.ok (sqliteTables db)
    else if query = "SELECT table_schema, table_name FROM information_schema.tables WHERE table_schema NOT IN ('information_schema', 'mysql', 'performance_schema') ORDER BY table_schema, table_name" then
      Except.ok (informationSchemaTables db ["information_schema", "mysql", "performance_schema"])
    else if query = "SELECT table_schema, table_name FROM information_schema.tables WHERE table_schema NOT IN ('information_schema', 'pg_catalog') ORDER BY table_schema, table_name" then
      Except.ok (informationSchemaTables db ["information_schema", "pg_catalog"])
    else Except.error "unsupported statement"

/-! ## The adapter -/

/-- The function `quoteIdent` (lines 147-149). -/
def quoteIdent (column : String) : String :=
  pq.QuoteIdentifier column

/-- The function `tsmSystemRowsSupported` (lines 151-159). -/
def tsmSystemRowsSupported (db : DB) : Except AbortError Bool :=
  match db.QueryRowCount "SELECT COUNT(*) FROM pg_extension WHERE extname = 'tsm_system_rows'" with
  | Except.error err => Except.error (AbortError.capabilityCheck err)
  | Except.ok count => Except.ok (decide (count > 0))

/-- The method `SqlAdapter.FetchTables` (lines 36-56). -/
def SqlAdapter.FetchTables (a : SqlAdapter) : Except AbortError (List table) :=
  let db := a.DB
  let query : String :=
    if db.DriverName = "sqlite3" then
      "SELECT '' AS table_schema, name AS table_name FROM sqlite_master WHERE type = 'table' AND name != 'sqlite_sequence' ORDER BY name"
    else if db.DriverName = "mysql" then
      "SELECT table_schema, table_name FROM information_schema.tables WHERE table_schema NOT IN ('information_schema', 'mysql', 'performance_schema') ORDER BY table_schema, table_name"
    else
      "SELECT table_schema, table_name FROM information_schema.tables WHERE table_schema NOT IN ('information_schema', 'pg_catalog') ORDER BY table_schema, table_name"
  match db.Select query with
  | Except.error err => Except.error (AbortError.connection err)
  | Except.ok tables => Except.ok tables

/-- The statement text `sql` of `FetchTableData` (lines 61-80). -/
def FetchTableData.sql (db : DB) (table : table) (limit : Int) : Except AbortError String :=
  if db.DriverName = "postgres" then
    let quotedTable := quoteIdent table.Schema ++ "." ++ quoteIdent table.Name
    match tsmSystemRowsSupported db with
    | Except.error err => Except.error err
    | Except.ok true =>
      Except.ok (Sprintf "SELECT * FROM %s TABLESAMPLE SYSTEM_ROWS(%d)"
        [FmtArg.str quotedTable, FmtArg.int limit])
    | Except.ok false =>
      Except.ok (Sprintf "SELECT * FROM %s LIMIT %d" [FmtArg.str quotedTable, FmtArg.int limit])
  else if db.DriverName = "sqlite3" then
    Except.ok (Sprintf "SELECT * FROM %s ORDER BY RANDOM() LIMIT %d"
      [FmtArg.str table.Name, FmtArg.int limit])
  else
    Except.ok (Sprintf "SELECT * FROM %s LIMIT %d"
      [FmtArg.str (table.Schema ++ "." ++ table.Name), FmtArg.int limit])

/-- The loop "map types" of `FetchTableData` (lines 95-107): `columnNames` and
`columnTypes` start as `make([]string, len(cols))` and entry `i` of each is set
from column `i`. -/
def mapTypes (cols : List ColumnType) : List String × List String :=
  cols.enum.foldl
    (fun acc p =>
      let columnNames := acc.1.set p.1 p.2.Name
      match p.2.ScanType with
      | none => (columnNames, acc.2.set p.1 "string")
      | some scanType => (columnNames, acc.2.set p.1 scanType.String))
    (List.replicate cols.length "", List.replicate cols.length "")

/-- The body of the inner loop of `FetchTableData` (lines 129-138), for the
buffer `raw` of column `i`. -/
def checkValue (columnTypes : List String) (columnValues : List (List String)) (i : Nat)
    (raw : RawBytes) : List (List String) :=
  if columnTypes.getD i "" = "string" then
    match raw with
    | none => columnValues
    | some raw =>
      let str : String := raw
      if str ≠ "" then columnValues.set i (columnValues.getD i [] ++ [str])
      else columnValues
  else columnValues

/-- The inner loop of `FetchTableData` over the buffers of one row
(`for i, raw := range rawResult`, lines 128-139). -/
def checkValues (columnTypes : List String) (rawResult : List RawBytes)
    (columnValues : List (List String)) : List (List String) :=
  rawResult.enum.foldl (fun columnValues p => checkValue columnTypes columnValues p.1 p.2)
    columnValues

/-- The loop `for rows.Next()` of `FetchTableData` (lines 122-140), over the
rows still to come. When `rows.Next()` returns false the loop ends; the code
does not look at `rows.Err()` then. -/
def scanRows (ncols : Nat) (columnTypes : List String) :
    List (Except String (List RawBytes)) → List (List String) →
      Except AbortError (List (List String))
  | [], columnValues => Except.ok columnValues
  | row :: rest, columnValues =>
    match Rows.Scan ncols row with
    | Except.error err => Except.error (AbortError.scan err)
    | Except.ok rawResult =>
      scanRows ncols columnTypes rest (checkValues columnTypes rawResult columnValues)

/-- The part of `FetchTableData` after the statement is run (lines 88-142). -/
def readRows (rows : Rows) : Except AbortError (List String × List (List String)) :=
  match rows.ColumnTypes with
  | Except.error err => Except.error (AbortError.columnTypes err)
  | Except.ok cols =>
    let types := mapTypes cols
    let columnNames := types.1
    let columnTypes := types.2
    let columnValues : List (List String) := List.replicate cols.length []
    match scanRows cols.length columnTypes rows.scans columnValues with
    | Except.error err => Except.error err
    | Except.ok columnValues => Except.ok (columnNames, columnValues)

/-- The method `SqlAdapter.FetchTableData` (lines 58-143). -/
def SqlAdapter.FetchTableData (a : SqlAdapter) (table : table) (limit : Int) :
    Except AbortError (List String × List (List String)) :=
  let db := a.DB
  match FetchTableData.sql db table limit with
  | Except.error err => Except.error err
  | Except.ok sql =>
    match db.Query sql with
    | Except.error err => Except.error (AbortError.query err)
    | Except.ok rows => readRows rows

/-! ## The reference the loops are compared with -/

/-- The name `columnTypes[i]` that "map types" gives a column: `"string"` when
the driver reports no scan type, the name of the scan type otherwise. -/
def typeName (col : ColumnType) : String :=
  match col.ScanType with
  | none => "string"
  | some scanType => scanType.String

/-- What one buffer adds to the value list of a column whose type name is `ty`:
the value, when the type name is `"string"` and the buffer is neither nil nor
empty; nothing otherwise. -/
def cellValue (ty : String) (raw : RawBytes) : List String :=
  if ty = "string" then
    match raw with
    | none => []
    | some str => if str ≠ "" then [str] else []
  else []

/-- The cells of column `i` that are non-null and non-empty, in row order, each
as the string of its bytes. -/
def nonEmptyCells (i : Nat) (data : List (List RawBytes)) : List String :=
  data.filterMap (fun row =>
    match row.getD i none with
    | none => none
    | some str => if str = "" then none else some str)

/-- The reference value list of column `i`: its non-null, non-empty cells in row
order when the driver reports no scan type for the column or a scan type whose
name is `"string"`, the empty list when it reports any other scan type. -/
def referenceColumn (col : ColumnType) (i : Nat) (data : List (List RawBytes)) : List String :=
  match col.ScanType with
  | none => nonEmptyCells i data
  | some scanType => if scanType.String = "string" then nonEmptyCells i data else []

/-- What the rows `data` add to the value list of column `j`, row after row. -/
def columnCells (types : List String) (j : Nat) (data : List (List RawBytes)) : List String :=
  data.flatMap (fun row => cellValue (types.getD j "") (row.getD j none))

/-! ## Concrete databases -/

/-- Text order by code point, the binary collation. -/
def binaryLe : List Char → List Char → Bool
  | [], _ => true
  | _ :: _, [] => false
  | a :: as, b :: bs =>
    if a.toNat < b.toNat then true
    else if b.toNat < a.toNat then false
    else binaryLe as bs

/-- A connection with the given driver name that answers every statement with
the given result set and the extension probe with `count`, over an empty catalog. -/
def constDB (driver : String) (count : Except String Int) (rows : Except String Rows) : DB :=
  { DriverName := driver
    QueryRowCount := fun _ => count
    Query := fun _ => rows
    sqlite_master := []
    information_schema_tables := []
    collation := fun a b => binaryLe a.data b.data
    selectFailure := none }

/-- The rows `(1,'a'), (2,''), (3,NULL)` of the table `t(id, name)`. -/
def tData : List (List RawBytes) :=
  [[some "1", some "a"], [some "2", some ""], [some "3", none]]

/-- The columns of `t(id, name)` when the driver reports no scan type. -/
def untypedColumns : List ColumnType :=
  [{ Name := "id", ScanType := none }, { Name := "name", ScanType := none }]

/-- The columns of `t(id INTEGER, name TEXT)` when the driver reports the scan
types `int64` and `string`. -/
def typedColumns : List ColumnType :=
  [{ Name := "id", ScanType := some { name := "int64" } },
   { Name := "name", ScanType := some { name := "string" } }]

/-- The result set of `t` with untyped columns, read to the end. -/
def untypedResult : Rows :=
  { ColumnTypes := Except.ok untypedColumns, scans := tData.map Except.ok, Err := none }

/-- The result set of `t` with typed columns, read to the end. -/
def typedResult : Rows :=
  { ColumnTypes := Except.ok typedColumns, scans := tData.map Except.ok, Err := none }

/-- The result set of `t` whose iteration breaks after the first row: `Next`
returns false and `rows.Err()` holds the failure. -/
def brokenResult : Rows :=
  { ColumnTypes := Except.ok untypedColumns
    scans := [Except.ok [some "1", some "a"]]
    Err := some "driver: bad connection" }

/-- A table with no rows and the columns of `t`. -/
def emptyResult : Rows :=
  { ColumnTypes := Except.ok untypedColumns, scans := [], Err := none }

/-- SQLite, table `t(id, name)`, no scan type reported. -/
def sqliteUntyped : SqlAdapter :=
  { DB := constDB "sqlite3" (Except.ok 0) (Except.ok untypedResult) }

/-- SQLite, table `t(id INTEGER, name TEXT)`. -/
def sqliteTyped : SqlAdapter :=
  { DB := constDB "sqlite3" (Except.ok 0) (Except.ok typedResult) }

/-- SQLite, table `t`, the connection breaking after the first row. -/
def sqliteBroken : SqlAdapter :=
  { DB := constDB "sqlite3" (Except.ok 0) (Except.ok brokenResult) }

/-- SQLite, an empty table. -/
def sqliteEmpty : SqlAdapter :=
  { DB := constDB "sqlite3" (Except.ok 0) (Except.ok emptyResult) }

/-- PostgreSQL with the extension `tsm_system_rows` installed. -/
def postgresSampling : SqlAdapter :=
  { DB := constDB "postgres" (Except.ok 1) (Except.ok untypedResult) }

/-- PostgreSQL without the extension `tsm_system_rows`. -/
def postgresPlain : SqlAdapter :=
  { DB := constDB "postgres" (Except.ok 0) (Except.ok untypedResult) }

/-- A SQLite file with the tables `users` and `accounts`, an index and the
internal table `sqlite_sequence`. -/
def sqliteFile : SqlAdapter :=
  { DB :=
      { DriverName := "sqlite3"
        QueryRowCount := fun _ => Except.ok 0
        Query := fun _ => Except.ok emptyResult
        sqlite_master :=
          [{ type := "table", name := "users" },
           { type := "table", name := "sqlite_sequence" },
           { type := "index", name := "idx_users" },
           { type := "table", name := "accounts" }]
        information_schema_tables := []
        collation := fun a b => binaryLe a.data b.data
        selectFailure := none } }

/-- A PostgreSQL server with the schemas `pg_catalog`, `information_schema` and
`public`. -/
def postgresServer : SqlAdapter :=
  { DB :=
      { DriverName := "postgres"
        QueryRowCount := fun _ => Except.ok 0
        Query := fun _ => Except.ok emptyResult
        sqlite_master := []
        information_schema_tables :=
          [{ table_schema := "pg_catalog", table_name := "pg_class" },
           { table_schema := "public", table_name := "users" },
           { table_schema := "information_schema", table_name := "tables" }]
        collation := fun a b => binaryLe a.data b.data
        selectFailure := none } }

/-- A MySQL server with the databases `information_schema`, `mysql`,
`performance_schema` and `appdb`. -/
def mysqlServer : SqlAdapter :=
  { DB :=
      { DriverName := "mysql"
        QueryRowCount := fun _ => Except.ok 0
        Query := fun _ => Except.ok emptyResult
        sqlite_master := []
        information_schema_tables :=
          [{ table_schema := "information_schema", table_name := "TABLES" },
           { table_schema := "mysql", table_name := "user" },
           { table_schema := "appdb", table_name := "users" },
           { table_schema := "performance_schema", table_name := "threads" },
           { table_schema := "appdb", table_name := "orders" }]
        collation := fun a b => binaryLe a.data b.data
        selectFailure := none } }

/-! ## Lemmas on the loops -/

theorem mapTypes_loop (l : List ColumnType) :
    ∀ (k : Nat) (pre1 pre2 rest1 rest2 : List String),
      pre1.length = k → pre2.length = k → rest1.length = l.length → rest2.length = l.length →
      (l.enumFrom k).foldl
          (fun acc p =>
            let columnNames := acc.1.set p.1 p.2.Name
            match p.2.ScanType with
            | none => (columnNames, acc.2.set p.1 "string")
            | some scanType => (columnNames, acc.2.set p.1 scanType.String))
          (pre1 ++ rest1, pre2 ++ rest2)
        = (pre1 ++ l.map ColumnType.Name, pre2 ++ l.map typeName) := by
  induction l with
  | nil =>
    intro k pre1 pre2 rest1 rest2 _ _ h1 h2
    simp at h1 h2
    simp [h1, h2]
  | cons c l ih =>
    intro k pre1 pre2 rest1 rest2 hp1 hp2 h1 h2
    obtain ⟨r1, rest1, rfl⟩ := List.exists_cons_of_length_eq_add_one h1
    obtain ⟨r2, rest2, rfl⟩ := List.exists_cons_of_length_eq_add_one h2
    simp only [List.length_cons, Nat.add_right_cancel_iff] at h1 h2
    have e1 : ∀ x : String, (pre1 ++ r1 :: rest1).set k x = (pre1 ++ [x]) ++ rest1 := by
      intro x; subst hp1; simp
    have e2 : ∀ x : String, (pre2 ++ r2 :: rest2).set k x = (pre2 ++ [x]) ++ rest2 := by
      intro x; subst hp2; simp
    simp only [List.enumFrom_cons, List.foldl_cons]
    cases hs : c.ScanType with
    | none =>
      simp only [e1, e2]
      rw [ih (k + 1) (pre1 ++ [c.Name]) (pre2 ++ ["string"]) rest1 rest2 (by simp [hp1])
        (by simp [hp2]) h1 h2]
      simp [typeName, hs]
    | some t =>
      simp only [e1, e2]
      rw [ih (k + 1) (pre1 ++ [c.Name]) (pre2 ++ [t.String]) rest1 rest2 (by simp [hp1])
        (by simp [hp2]) h1 h2]
      simp [typeName, hs]

theorem mapTypes_eq (cols : List ColumnType) :
    mapTypes cols = (cols.map ColumnType.Name, cols.map typeName) := by
  have h := mapTypes_loop cols 0 [] [] (List.replicate cols.length "")
    (List.replicate cols.length "") rfl rfl (by simp) (by simp)
  simpa [mapTypes, List.enum] using h

theorem cellValue_none (ty : String) : cellValue ty none = [] := by
  unfold cellValue; split <;> rfl

theorem checkValue_length (types : List String) (cv : List (List String)) (i : Nat)
    (raw : RawBytes) : (checkValue types cv i raw).length = cv.length := by
  unfold checkValue
  split
  · cases raw with
    | none => rfl
    | some str => dsimp only; split <;> simp
  · rfl

theorem checkValue_getD (types : List String) (cv : List (List String)) (i : Nat)
    (raw : RawBytes) (hi : i < cv.length) (j : Nat) :
    (checkValue types cv i raw).getD j [] =
      cv.getD j [] ++ (if j = i then cellValue (types.getD i "") raw else []) := by
  unfold checkValue cellValue
  by_cases hty : types.getD i "" = "string"
  · simp only [hty, if_true]
    cases raw with
    | none => simp
    | some str =>
      dsimp only
      by_cases hs : str = ""
      · simp [hs]
      · simp only [ne_eq, hs, not_false_eq_true, if_true]
        by_cases hj : j = i
        · subst hj
          simp [List.getD_eq_getElem?_getD, List.getElem?_set, hi]
        · have hj' : i ≠ j := fun h => hj h.symm
          simp [List.getD_eq_getElem?_getD, List.getElem?_set, hj, hj']
  · rw [if_neg hty, if_neg hty]
    simp

theorem checkValues_loop (types : List String) (l : List RawBytes) :
    ∀ (k : Nat) (cv : List (List String)), k + l.length ≤ cv.length →
      ((l.enumFrom k).foldl (fun cv p => checkValue types cv p.1 p.2) cv).length = cv.length ∧
      ∀ j, ((l.enumFrom k).foldl (fun cv p => checkValue types cv p.1 p.2) cv).getD j [] =
        cv.getD j [] ++
          (if k ≤ j then cellValue (types.getD j "") (l.getD (j - k) none) else []) := by
  induction l with
  | nil =>
    intro k cv _
    refine ⟨rfl, fun j => ?_⟩
    simp [cellValue_none]
  | cons c l ih =>
    intro k cv hk
    simp only [List.length_cons] at hk
    simp only [List.enumFrom_cons, List.foldl_cons]
    have hlen := checkValue_length types cv k c
    obtain ⟨h1, h2⟩ := ih (k + 1) (checkValue types cv k c) (by omega)
    refine ⟨by rw [h1, hlen], fun j => ?_⟩
    rw [h2 j, checkValue_getD types cv k c (by omega) j]
    rcases Nat.lt_trichotomy j k with hlt | heq | hgt
    · have a1 : ¬ k + 1 ≤ j := by omega
      have a2 : ¬ k ≤ j := by omega
      have a3 : j ≠ k := by omega
      simp [a1, a2, a3]
    · subst heq
      simp
    · have a1 : k + 1 ≤ j := by omega
      have a2 : k ≤ j := by omega
      have a3 : j ≠ k := by omega
      obtain ⟨d, rfl⟩ : ∃ d, j = k + 1 + d := ⟨j - (k + 1), by omega⟩
      have e1 : k + 1 + d - (k + 1) = d := by omega
      have e2 : k + 1 + d - k = d + 1 := by omega
      simp [a1, a2, a3, e1, e2]

theorem checkValues_length (types : List String) (cells : List RawBytes)
    (cv : List (List String)) (h : cells.length ≤ cv.length) :
    (checkValues types cells cv).length = cv.length := by
  have := (checkValues_loop types cells 0 cv (by simpa using h)).1
  simpa [checkValues, List.enum] using this

theorem checkValues_getD (types : List String) (cells : List RawBytes)
    (cv : List (List String)) (h : cells.length ≤ cv.length) (j : Nat) :
    (checkValues types cells cv).getD j [] =
      cv.getD j [] ++ cellValue (types.getD j "") (cells.getD j none) := by
  have := (checkValues_loop types cells 0 cv (by simpa using h)).2 j
  simpa [checkValues, List.enum] using this

theorem scanRows_ok (n : Nat) (types : List String) (data : List (List RawBytes)) :
    ∀ cv : List (List String), (∀ row ∈ data, row.length = n) → n ≤ cv.length →
      ∃ R, scanRows n types (data.map Except.ok) cv = Except.ok R ∧ R.length = cv.length ∧
        ∀ j, R.getD j [] = cv.getD j [] ++ columnCells types j data := by
  induction data with
  | nil =>
    intro cv _ _
    exact ⟨cv, rfl, rfl, fun j => by simp [columnCells]⟩
  | cons row data ih =>
    intro cv hrows hn
    have hrow : row.length = n := hrows row (List.mem_cons_self _ _)
    have hle : row.length ≤ cv.length := by omega
    obtain ⟨R, hR, hlen, hget⟩ := ih (checkValues types row cv)
      (fun r hr => hrows r (List.mem_cons_of_mem _ hr))
      (by rw [checkValues_length types row cv hle]; exact hn)
    refine ⟨R, ?_, ?_, fun j => ?_⟩
    · simp only [List.map_cons, scanRows, Rows.Scan, hrow, if_true]
      exact hR
    · rw [hlen, checkValues_length types row cv hle]
    · rw [hget j, checkValues_getD types row cv hle j]
      simp [columnCells, List.flatMap_cons]

theorem scanRows_inv (n : Nat) (types : List String)
    (rows : List (Except String (List RawBytes))) :
    ∀ (cv R : List (List String)), scanRows n types rows cv = Except.ok R →
      ∃ data : List (List RawBytes), rows = data.map Except.ok ∧ ∀ row ∈ data, row.length = n := by
  induction rows with
  | nil =>
    intro cv R _
    exact ⟨[], rfl, fun _ h => by simp at h⟩
  | cons row rows ih =>
    intro cv R h
    cases row with
    | error err => simp [scanRows, Rows.Scan] at h
    | ok values =>
      by_cases hv : values.length = n
      · simp only [scanRows, Rows.Scan, hv, if_true] at h
        obtain ⟨data, hd, hall⟩ := ih _ R h
        refine ⟨values :: data, by simp [hd], ?_⟩
        intro r hr
        rcases List.mem_cons.mp hr with rfl | hr
        · exact hv
        · exact hall r hr
      · simp [scanRows, Rows.Scan, hv] at h

theorem scanRows_error (n : Nat) (types : List String)
    (rows : List (Except String (List RawBytes))) :
    ∀ (cv : List (List String)) (e : AbortError), scanRows n types rows cv = Except.error e →
      ∃ err, e = AbortError.scan err := by
  induction rows with
  | nil => intro cv e h; simp [scanRows] at h
  | cons row rows ih =>
    intro cv e h
    cases hs : Rows.Scan n row with
    | error err =>
      simp only [scanRows, hs] at h
      exact ⟨err, (Except.error.inj h).symm⟩
    | ok raw =>
      simp only [scanRows, hs] at h
      exact ih _ e h

theorem readRows_ok (rs : Rows) (cols : List ColumnType) (data : List (List RawBytes))
    (hc : rs.ColumnTypes = Except.ok cols) (hs : rs.scans = data.map Except.ok)
    (hrows : ∀ row ∈ data, row.length = cols.length) :
    ∃ values, readRows rs = Except.ok (cols.map ColumnType.Name, values) ∧
      values.length = cols.length ∧
      ∀ j, values.getD j [] = columnCells (cols.map typeName) j data := by
  obtain ⟨R, hR, hlen, hget⟩ := scanRows_ok cols.length (cols.map typeName) data
    (List.replicate cols.length []) hrows (by simp)
  refine ⟨R, ?_, by simpa using hlen, fun j => ?_⟩
  · simp only [readRows, hc, mapTypes_eq, hs, hR]
  · rw [hget j]
    simp [List.getD_eq_getElem?_getD, List.getElem?_replicate]
    split <;> rfl

theorem readRows_inv (rs : Rows) (names : List String) (values : List (List String))
    (h : readRows rs = Except.ok (names, values)) :
    ∃ (cols : List ColumnType) (data : List (List RawBytes)),
      rs.ColumnTypes = Except.ok cols ∧ rs.scans = data.map Except.ok ∧
      (∀ row ∈ data, row.length = cols.length) := by
  unfold readRows at h
  cases hc : rs.ColumnTypes with
  | error err => simp [hc] at h
  | ok cols =>
    simp only [hc] at h
    cases hs : scanRows cols.length (mapTypes cols).2 rs.scans (List.replicate cols.length []) with
    | error err => simp [hs] at h
    | ok R =>
      obtain ⟨data, hd, hall⟩ := scanRows_inv _ _ _ _ R hs
      exact ⟨cols, data, rfl, hd, hall⟩

theorem columnCells_string (types : List String) (j : Nat) (data : List (List RawBytes))
    (h : types.getD j "" = "string") : columnCells types j data = nonEmptyCells j data := by
  unfold columnCells nonEmptyCells
  induction data with
  | nil => rfl
  | cons row data ih =>
    rw [List.flatMap_cons, ih, List.filterMap_cons, h]
    unfold cellValue
    cases row.getD j none with
    | none => simp
    | some str => by_cases hs : str = "" <;> simp [hs]

theorem columnCells_other (types : List String) (j : Nat) (data : List (List RawBytes))
    (h : types.getD j "" ≠ "string") : columnCells types j data = [] := by
  unfold columnCells
  induction data with
  | nil => rfl
  | cons row data ih =>
    rw [List.flatMap_cons, ih]
    unfold cellValue
    rw [if_neg h]
    rfl

theorem columnCells_reference (cols : List ColumnType) (j : Nat) (hj : j < cols.length)
    (data : List (List RawBytes)) :
    columnCells (cols.map typeName) j data = referenceColumn cols[j] j data := by
  have hty : (cols.map typeName).getD j "" = typeName cols[j] := by
    simp [List.getD_eq_getElem?_getD, List.getElem?_map, List.getElem?_eq_getElem hj]
  unfold referenceColumn
  cases hs : cols[j].ScanType with
  | none =>
    exact columnCells_string _ j data (by rw [hty]; simp [typeName, hs])
  | some scanType =>
    by_cases hn : scanType.String = "string"
    · simp only [if_pos hn]
      exact columnCells_string _ j data (by rw [hty]; simp [typeName, hs, hn])
    · simp only [if_neg hn]
      exact columnCells_other _ j data (by rw [hty]; simp [typeName, hs, hn])

theorem cellValue_ne_empty (ty : String) (raw : RawBytes) : ∀ v ∈ cellValue ty raw, v ≠ "" := by
  intro v hv
  unfold cellValue at hv
  split at hv
  · cases raw with
    | none => simp at hv
    | some str =>
      by_cases hs : str = ""
      · simp [hs] at hv
      · simp [hs] at hv
        rw [hv]; exact hs
  · simp at hv

theorem cellValue_length_le (ty : String) (raw : RawBytes) : (cellValue ty raw).length ≤ 1 := by
  unfold cellValue
  split
  · cases raw with
    | none => simp
    | some str => by_cases hs : str = "" <;> simp [hs]
  · simp

theorem columnCells_ne_empty (types : List String) (j : Nat) (data : List (List RawBytes)) :
    ∀ v ∈ columnCells types j data, v ≠ "" := by
  intro v hv
  unfold columnCells at hv
  obtain ⟨row, _, hrow⟩ := List.mem_flatMap.mp hv
  exact cellValue_ne_empty _ _ v hrow

theorem columnCells_length_le (types : List String) (j : Nat) (data : List (List RawBytes)) :
    (columnCells types j data).length ≤ data.length := by
  unfold columnCells
  induction data with
  | nil => simp
  | cons row data ih =>
    rw [List.flatMap_cons, List.length_append, List.length_cons]
    have := cellValue_length_le (types.getD j "") (row.getD j none)
    omega

theorem FetchTableData_inv (a : SqlAdapter) (t : table) (limit : Int) (names : List String)
    (values : List (List String)) (h : a.FetchTableData t limit = Except.ok (names, values)) :
    ∃ sql rs, FetchTableData.sql a.DB t limit = Except.ok sql ∧
      a.DB.Query sql = Except.ok rs ∧ readRows rs = Except.ok (names, values) := by
  unfold SqlAdapter.FetchTableData at h
  cases hsql : FetchTableData.sql a.DB t limit with
  | error err => simp [hsql] at h
  | ok sql =>
    simp only [hsql] at h
    cases hq : a.DB.Query sql with
    | error err => simp [hq] at h
    | ok rs =>
      simp only [hq] at h
      exact ⟨sql, rs, rfl, hq, h⟩

theorem FetchTableData_of_readRows (a : SqlAdapter) (t : table) (limit : Int) (sql : String)
    (rs : Rows) (hsql : FetchTableData.sql a.DB t limit = Except.ok sql)
    (hq : a.DB.Query sql = Except.ok rs) : a.FetchTableData t limit = readRows rs := by
  simp only [SqlAdapter.FetchTableData, hsql, hq]

/-- A successful call read a result set whose rows all decoded, and its result
is the column names with, for column `j`, what the rows add to it. -/
theorem FetchTableData_success (a : SqlAdapter) (t : table) (limit : Int) (names : List String)
    (values : List (List String)) (h : a.FetchTableData t limit = Except.ok (names, values)) :
    ∃ (sql : String) (rs : Rows) (cols : List ColumnType) (data : List (List RawBytes)),
      FetchTableData.sql a.DB t limit = Except.ok sql ∧ a.DB.Query sql = Except.ok rs ∧
      rs.ColumnTypes = Except.ok cols ∧ rs.scans = data.map Except.ok ∧
      (∀ row ∈ data, row.length = cols.length) ∧
      names = cols.map ColumnType.Name ∧ values.length = cols.length ∧
      ∀ j, values.getD j [] = columnCells (cols.map typeName) j data := by
  obtain ⟨sql, rs, hsql, hq, hr⟩ := FetchTableData_inv a t limit names values h
  obtain ⟨cols, data, hc, hs, hrows⟩ := readRows_inv rs names values hr
  obtain ⟨values', hr', hlen, hget⟩ := readRows_ok rs cols data hc hs hrows
  rw [hr] at hr'
  have hpair := Except.ok.inj hr'
  have hn : names = cols.map ColumnType.Name := congrArg Prod.fst hpair
  have hv : values = values' := congrArg Prod.snd hpair
  subst hv
  exact ⟨sql, rs, cols, data, hsql, hq, hc, hs, hrows, hn, hlen, hget⟩

theorem getD_of_mem (values : List (List String)) (vs : List String) (h : vs ∈ values) :
    ∃ j, values.getD j [] = vs := by
  obtain ⟨j, hj, hv⟩ := List.getElem_of_mem h
  exact ⟨j, by simp [List.getD_eq_getElem?_getD, List.getElem?_eq_getElem hj, hv]⟩

theorem getElem?_of_getD (values : List (List String)) (j : Nat) (hj : j < values.length) :
    values[j]? = some (values.getD j []) := by
  simp [List.getD_eq_getElem?_getD, List.getElem?_eq_getElem hj]

theorem nonEmptyCells_append (i : Nat) (pre post : List (List RawBytes)) :
    nonEmptyCells i (pre ++ post) = nonEmptyCells i pre ++ nonEmptyCells i post := by
  simp [nonEmptyCells, List.filterMap_append]

theorem nonEmptyCells_cons_some (i : Nat) (row : List RawBytes) (post : List (List RawBytes))
    (str : String) (hcell : row[i]? = some (some str)) (hne : str ≠ "") :
    nonEmptyCells i (row :: post) = str :: nonEmptyCells i post := by
  simp [nonEmptyCells, List.filterMap_cons, List.getD_eq_getElem?_getD, hcell, hne]

theorem Sprintf_limit (q : String) (n : Int) :
    Sprintf "SELECT * FROM %s LIMIT %d" [FmtArg.str q, FmtArg.int n] =
      "SELECT * FROM " ++ q ++ " LIMIT " ++ toString n := by
  apply String.ext
  simp [Sprintf, sprintfChars, String.data_append]

theorem Sprintf_sample (q : String) (n : Int) :
    Sprintf "SELECT * FROM %s TABLESAMPLE SYSTEM_ROWS(%d)" [FmtArg.str q, FmtArg.int n] =
      "SELECT * FROM " ++ q ++ " TABLESAMPLE SYSTEM_ROWS(" ++ toString n ++ ")" := by
  apply String.ext
  simp [Sprintf, sprintfChars, String.data_append]

theorem Sprintf_random (q : String) (n : Int) :
    Sprintf "SELECT * FROM %s ORDER BY RANDOM() LIMIT %d" [FmtArg.str q, FmtArg.int n] =
      "SELECT * FROM " ++ q ++ " ORDER BY RANDOM() LIMIT " ++ toString n := by
  apply String.ext
  simp [Sprintf, sprintfChars, String.data_append]

theorem doubleQuotes_eq (l : List Char) :
    doubleQuotes l = l.flatMap (fun c => if c = '"' then ['"', '"'] else [c]) := by
  induction l with
  | nil => rfl
  | cons c l ih =>
    rw [List.flatMap_cons, doubleQuotes, ih]
    split <;> rfl

theorem mem_informationSchemaTables (db : DB) (excluded : List String) (t : table)
    (h : t ∈ informationSchemaTables db excluded) :
    t.Schema ∉ excluded ∧
      ∃ r ∈ db.information_schema_tables, r.table_schema = t.Schema ∧ r.table_name = t.Name := by
  unfold informationSchemaTables at h
  obtain ⟨r, hr, rfl⟩ := List.mem_map.mp h
  rw [(List.perm_insertionSort _ _).mem_iff, List.mem_filter] at hr
  exact ⟨of_decide_eq_true hr.2, r, hr.1, rfl, rfl⟩

theorem mem_sqliteTables (db : DB) (t : table) (h : t ∈ sqliteTables db) :
    t.Schema = "" ∧ t.Name ≠ "sqlite_sequence" := by
  unfold sqliteTables at h
  obtain ⟨r, hr, rfl⟩ := List.mem_map.mp h
  rw [(List.perm_insertionSort _ _).mem_iff, List.mem_filter] at hr
  have h2 := hr.2
  simp only [Bool.and_eq_true, decide_eq_true_eq] at h2
  exact ⟨rfl, h2.2⟩

set_option maxRecDepth 100000 in
theorem FetchTables_inv (a : SqlAdapter) (tables : List table)
    (h : a.FetchTables = Except.ok tables) :
    (a.DB.DriverName = "sqlite3" → tables = sqliteTables a.DB) ∧
    (a.DB.DriverName = "mysql" → tables =
      informationSchemaTables a.DB ["information_schema", "mysql", "performance_schema"]) ∧
    (a.DB.DriverName ≠ "sqlite3" → a.DB.DriverName ≠ "mysql" → tables =
      informationSchemaTables a.DB ["information_schema", "pg_catalog"]) := by
  unfold SqlAdapter.FetchTables DB.Select at h
  cases hf : a.DB.selectFailure with
  | some err => simp [hf] at h
  | none =>
    simp only [hf] at h
    refine ⟨fun hd => ?_, fun hd => ?_, fun h1 h2 => ?_⟩
    · rw [hd] at h
      simp only [if_true] at h
      exact (Except.ok.inj h).symm
    · rw [hd] at h
      have e1 : ¬ ("mysql" = "sqlite3") := by decide
      have e2 : ¬ ("SELECT table_schema, table_name FROM information_schema.tables WHERE table_schema NOT IN ('information_schema', 'mysql', 'performance_schema') ORDER BY table_schema, table_name" = "SELECT '' AS table_schema, name AS table_name FROM sqlite_master WHERE type = 'table' AND name != 'sqlite_sequence' ORDER BY name") := by decide
      simp only [if_neg e1, if_neg e2, if_true] at h
      exact (Except.ok.inj h).symm
    · have e2 : ¬ ("SELECT table_schema, table_name FROM information_schema.tables WHERE table_schema NOT IN ('information_schema', 'pg_catalog') ORDER BY table_schema, table_name" = "SELECT '' AS table_schema, name AS table_name FROM sqlite_master WHERE type = 'table' AND name != 'sqlite_sequence' ORDER BY name") := by decide
      have e3 : ¬ ("SELECT table_schema, table_name FROM information_schema.tables WHERE table_schema NOT IN ('information_schema', 'pg_catalog') ORDER BY table_schema, table_name" = "SELECT table_schema, table_name FROM information_schema.tables WHERE table_schema NOT IN ('information_schema', 'mysql', 'performance_schema') ORDER BY table_schema, table_name") := by decide
      simp only [if_neg h1, if_neg h2, if_neg e2, if_neg e3, if_true] at h
      exact (Except.ok.inj h).symm

/-- When the statement runs and every row of its result set decodes, the call
succeeds, and column `j` of its result holds what the rows add to it. -/
theorem FetchTableData_ok (a : SqlAdapter) (t : table) (limit : Int) (sql : String)
    (rs : Rows) (cols : List ColumnType) (data : List (List RawBytes))
    (hsql : FetchTableData.sql a.DB t limit = Except.ok sql)
    (hq : a.DB.Query sql = Except.ok rs)
    (hc : rs.ColumnTypes = Except.ok cols)
    (hs : rs.scans = data.map Except.ok)
    (hrows : ∀ row ∈ data, row.length = cols.length) :
    ∃ values, a.FetchTableData t limit = Except.ok (cols.map ColumnType.Name, values) ∧
      values.length = cols.length ∧
      ∀ j, values.getD j [] = columnCells (cols.map typeName) j data := by
  obtain ⟨values, hr, hlen, hget⟩ := readRows_ok rs cols data hc hs hrows
  refine ⟨values, ?_, hlen, hget⟩
  rw [FetchTableData_of_readRows a t limit sql rs hsql hq, hr]

/-- The failures the code does surface: a call that fails ended at one of the
four `abort` sites of `FetchTableData` and `tsmSystemRowsSupported`, and the
probe is one of them for the driver `postgres` only. -/
theorem FetchTableData_error_sites (a : SqlAdapter) (t : table) (limit : Int) (e : AbortError)
    (h : a.FetchTableData t limit = Except.error e) :
    (∃ err, e = AbortError.capabilityCheck err ∧ a.DB.DriverName = "postgres" ∧
      a.DB.QueryRowCount "SELECT COUNT(*) FROM pg_extension WHERE extname = 'tsm_system_rows'"
        = Except.error err) ∨
    (∃ err sql, e = AbortError.query err ∧ a.DB.Query sql = Except.error err) ∨
    (∃ err, e = AbortError.columnTypes err) ∨
    (∃ err, e = AbortError.scan err) := by
  unfold SqlAdapter.FetchTableData at h
  cases hsql : FetchTableData.sql a.DB t limit with
  | error err =>
    simp only [hsql] at h
    have he : err = e := Except.error.inj h
    subst he
    left
    unfold FetchTableData.sql at hsql
    by_cases hd : a.DB.DriverName = "postgres"
    · simp only [hd, if_true] at hsql
      unfold tsmSystemRowsSupported at hsql
      cases hc : a.DB.QueryRowCount
          "SELECT COUNT(*) FROM pg_extension WHERE extname = 'tsm_system_rows'" with
      | error msg =>
        simp only [hc] at hsql
        exact ⟨msg, (Except.error.inj hsql).symm, hd, rfl⟩
      | ok count =>
        simp only [hc] at hsql
        cases hb : decide (count > 0) <;> simp [hb] at hsql
    · simp only [if_neg hd] at hsql
      split at hsql <;> simp at hsql
  | ok sql =>
    simp only [hsql] at h
    cases hq : a.DB.Query sql with
    | error err =>
      simp only [hq] at h
      exact Or.inr (Or.inl ⟨err, sql, (Except.error.inj h).symm, hq⟩)
    | ok rs =>
      simp only [hq] at h
      unfold readRows at h
      cases hc : rs.ColumnTypes with
      | error err =>
        simp only [hc] at h
        exact Or.inr (Or.inr (Or.inl ⟨err, (Except.error.inj h).symm⟩))
      | ok cols =>
        simp only [hc] at h
        cases hs : scanRows cols.length (mapTypes cols).2 rs.scans
            (List.replicate cols.length []) with
        | error err =>
          simp only [hs] at h
          have he : err = e := Except.error.inj h
          subst he
          exact Or.inr (Or.inr (Or.inr (scanRows_error _ _ _ _ _ hs)))
        | ok R => simp [hs] at h

/-- The loop over the rows never looks at `rows.Err()`: the result of reading a
result set does not depend on it. -/
theorem readRows_Err_irrelevant (rs : Rows) (e : Option String) :
    readRows { rs with Err := e } = readRows rs := rfl

/-! ## The claims -/

/-- C10. For every result set whose rows decode, the call succeeds and
`columnValues[i]` is the reference of column `i`: its non-null, non-empty cells
in row order when the driver reports no scan type or a scan type named
`"string"`, the empty list when it reports any other scan type. -/
theorem FetchTableData_reference (a : SqlAdapter) (t : table) (limit : Int) (sql : String)
    (rs : Rows) (cols : List ColumnType) (data : List (List RawBytes))
    (hsql : FetchTableData.sql a.DB t limit = Except.ok sql)
    (hq : a.DB.Query sql = Except.ok rs)
    (hc : rs.ColumnTypes = Except.ok cols)
    (hs : rs.scans = data.map Except.ok)
    (hrows : ∀ row ∈ data, row.length = cols.length) :
    ∃ values, a.FetchTableData t limit = Except.ok (cols.map ColumnType.Name, values) ∧
      values.length = cols.length ∧
      ∀ (i : Nat) (hi : i < cols.length), values[i]? = some (referenceColumn cols[i] i data) := by
  obtain ⟨values, hr, hlen, hget⟩ := FetchTableData_ok a t limit sql rs cols data hsql hq hc hs hrows
  refine ⟨values, hr, hlen, fun i hi => ?_⟩
  rw [getElem?_of_getD values i (by omega), hget i, columnCells_reference cols i hi data]

/-- C10, on the table `t(id INTEGER, name TEXT)`. -/
theorem FetchTableData_reference_witness :
    ∃ values, sqliteTyped.FetchTableData ⟨"", "t"⟩ 10 =
        Except.ok (typedColumns.map ColumnType.Name, values) ∧
      values.length = typedColumns.length ∧
      ∀ (i : Nat) (hi : i < typedColumns.length),
        values[i]? = some (referenceColumn typedColumns[i] i tData) :=
  FetchTableData_reference sqliteTyped ⟨"", "t"⟩ 10 "SELECT * FROM t ORDER BY RANDOM() LIMIT 10"
    typedResult typedColumns tData rfl rfl rfl rfl (by decide)

/-- C2. For every successful call, no entry of any column's value list is the
empty string. -/
theorem FetchTableData_no_empty_value (a : SqlAdapter) (t : table) (limit : Int)
    (names : List String) (values : List (List String))
    (h : a.FetchTableData t limit = Except.ok (names, values)) :
    ∀ vs ∈ values, ∀ v ∈ vs, v ≠ "" := by
  obtain ⟨sql, rs, cols, data, -, -, -, -, -, -, -, hget⟩ :=
    FetchTableData_success a t limit names values h
  intro vs hvs v hv
  obtain ⟨j, hj⟩ := getD_of_mem values vs hvs
  rw [← hj, hget j] at hv
  exact columnCells_ne_empty _ _ _ v hv

/-- C2, on the table `t(id, name)`. -/
theorem FetchTableData_no_empty_value_witness :
    sqliteUntyped.FetchTableData ⟨"", "t"⟩ 10 =
        Except.ok (["id", "name"], [["1", "2", "3"], ["a"]]) ∧
      ∀ vs ∈ [["1", "2", "3"], ["a"]], ∀ v ∈ vs, v ≠ "" :=
  ⟨rfl, FetchTableData_no_empty_value sqliteUntyped ⟨"", "t"⟩ 10 ["id", "name"]
    [["1", "2", "3"], ["a"]] rfl⟩

/-- C3. For every successful call, `columnNames` and `columnValues` have the
length of the result set's column list, and `columnNames` is the list of the
column names in the result set's order, whatever the rows are. -/
theorem FetchTableData_column_shape (a : SqlAdapter) (t : table) (limit : Int)
    (names : List String) (values : List (List String))
    (h : a.FetchTableData t limit = Except.ok (names, values)) :
    ∃ (sql : String) (rs : Rows) (cols : List ColumnType),
      FetchTableData.sql a.DB t limit = Except.ok sql ∧ a.DB.Query sql = Except.ok rs ∧
      rs.ColumnTypes = Except.ok cols ∧
      names.length = values.length ∧ values.length = cols.length ∧
      names = cols.map ColumnType.Name ∧
      ∀ (i : Nat) (hi : i < cols.length), names[i]? = some cols[i].Name := by
  obtain ⟨sql, rs, cols, data, hsql, hq, hc, -, -, hn, hlen, -⟩ :=
    FetchTableData_success a t limit names values h
  refine ⟨sql, rs, cols, hsql, hq, hc, ?_, hlen, hn, fun i hi => ?_⟩
  · rw [hn, hlen, List.length_map]
  · rw [hn, List.getElem?_map, List.getElem?_eq_getElem hi]
    rfl

/-- C3, on the table `t(id, name)`. -/
theorem FetchTableData_column_shape_witness :
    ∃ (sql : String) (rs : Rows) (cols : List ColumnType),
      FetchTableData.sql sqliteUntyped.DB ⟨"", "t"⟩ 10 = Except.ok sql ∧
      sqliteUntyped.DB.Query sql = Except.ok rs ∧
      rs.ColumnTypes = Except.ok cols ∧
      ["id", "name"].length = [["1", "2", "3"], ["a"]].length ∧
      [["1", "2", "3"], ["a"]].length = cols.length ∧
      ["id", "name"] = cols.map ColumnType.Name ∧
      ∀ (i : Nat) (hi : i < cols.length), ["id", "name"][i]? = some cols[i].Name :=
  FetchTableData_column_shape sqliteUntyped ⟨"", "t"⟩ 10 ["id", "name"]
    [["1", "2", "3"], ["a"]] rfl

/-- C4. For every successful call, every column's value list is at most as long
as the number of rows of the result set, hence at most `limit` long whenever the
database returned at most `limit` rows. -/
theorem FetchTableData_values_le_rows (a : SqlAdapter) (t : table) (limit : Int)
    (names : List String) (values : List (List String))
    (h : a.FetchTableData t limit = Except.ok (names, values)) :
    ∃ (sql : String) (rs : Rows),
      FetchTableData.sql a.DB t limit = Except.ok sql ∧ a.DB.Query sql = Except.ok rs ∧
      (∀ vs ∈ values, vs.length ≤ rs.scans.length) ∧
      ((rs.scans.length : Int) ≤ limit → ∀ vs ∈ values, (vs.length : Int) ≤ limit) := by
  obtain ⟨sql, rs, cols, data, hsql, hq, -, hs, -, -, -, hget⟩ :=
    FetchTableData_success a t limit names values h
  have hle : ∀ vs ∈ values, vs.length ≤ rs.scans.length := by
    intro vs hvs
    obtain ⟨j, hj⟩ := getD_of_mem values vs hvs
    rw [← hj, hget j, hs, List.length_map]
    exact columnCells_length_le _ _ _
  refine ⟨sql, rs, hsql, hq, hle, fun hlim vs hvs => ?_⟩
  have := hle vs hvs
  omega

/-- C4, on the table `t(id, name)` with limit 10. -/
theorem FetchTableData_values_le_rows_witness :
    ∃ (sql : String) (rs : Rows),
      FetchTableData.sql sqliteUntyped.DB ⟨"", "t"⟩ 10 = Except.ok sql ∧
      sqliteUntyped.DB.Query sql = Except.ok rs ∧
      (∀ vs ∈ [["1", "2", "3"], ["a"]], vs.length ≤ rs.scans.length) ∧
      ((rs.scans.length : Int) ≤ 10 → ∀ vs ∈ [["1", "2", "3"], ["a"]], (vs.length : Int) ≤ 10) :=
  FetchTableData_values_le_rows sqliteUntyped ⟨"", "t"⟩ 10 ["id", "name"]
    [["1", "2", "3"], ["a"]] rfl

/-- C8. When the statement runs and its result set has columns `cols` and no
rows, the call succeeds with the name of every column and, for every column, an
empty value list. -/
theorem FetchTableData_empty_table (a : SqlAdapter) (t : table) (limit : Int) (sql : String)
    (rs : Rows) (cols : List ColumnType)
    (hsql : FetchTableData.sql a.DB t limit = Except.ok sql)
    (hq : a.DB.Query sql = Except.ok rs)
    (hc : rs.ColumnTypes = Except.ok cols)
    (hs : rs.scans = []) :
    a.FetchTableData t limit =
      Except.ok (cols.map ColumnType.Name, List.replicate cols.length []) := by
  rw [FetchTableData_of_readRows a t limit sql rs hsql hq]
  simp only [readRows, hc, hs, scanRows, mapTypes_eq]

/-- C8, on an empty table with the columns `id` and `name`. -/
theorem FetchTableData_empty_table_witness :
    sqliteEmpty.FetchTableData ⟨"", "t"⟩ 10 =
      Except.ok (untypedColumns.map ColumnType.Name, List.replicate untypedColumns.length []) :=
  FetchTableData_empty_table sqliteEmpty ⟨"", "t"⟩ 10 "SELECT * FROM t ORDER BY RANDOM() LIMIT 10"
    emptyResult untypedColumns rfl rfl rfl rfl

/-- C1, as amended. In a successful call, a cell of a row that is neither null
nor the empty string is appended, as the string of its bytes, to the value list
of its column, after the values of the rows before it and before those of the
rows after it, when the driver reports no scan type for the column or the scan
type `string`; and the table `t(id, name)` with the rows `(1,'a'), (2,''),
(3,NULL)`, whose columns report no scan type, gives `["id","name"]`,
`["1","2","3"]` and `["a"]`. -/
theorem FetchTableData_appends_string_cells :
    (∀ (a : SqlAdapter) (t : table) (limit : Int) (sql : String) (rs : Rows)
        (cols : List ColumnType) (pre post : List (List RawBytes)) (row : List RawBytes)
        (i : Nat) (str : String),
        FetchTableData.sql a.DB t limit = Except.ok sql →
        a.DB.Query sql = Except.ok rs →
        rs.ColumnTypes = Except.ok cols →
        rs.scans = (pre ++ row :: post).map Except.ok →
        (∀ r ∈ pre ++ row :: post, r.length = cols.length) →
        ∀ (hi : i < cols.length),
        (cols[i].ScanType = none ∨ cols[i].ScanType = some { name := "string" }) →
        row[i]? = some (some str) → str ≠ "" →
        ∃ values, a.FetchTableData t limit = Except.ok (cols.map ColumnType.Name, values) ∧
          values[i]? = some (nonEmptyCells i pre ++ str :: nonEmptyCells i post)) ∧
    sqliteUntyped.FetchTableData ⟨"", "t"⟩ 10 =
      Except.ok (["id", "name"], [["1", "2", "3"], ["a"]]) := by
  refine ⟨?_, rfl⟩
  intro a t limit sql rs cols pre post row i str hsql hq hc hs hrows hi hty hcell hne
  obtain ⟨values, hr, hlen, hget⟩ :=
    FetchTableData_ok a t limit sql rs cols (pre ++ row :: post) hsql hq hc hs hrows
  refine ⟨values, hr, ?_⟩
  have href : referenceColumn cols[i] i (pre ++ row :: post) =
      nonEmptyCells i (pre ++ row :: post) := by
    rcases hty with hty | hty
    · simp [referenceColumn, hty]
    · simp [referenceColumn, hty, ReflectType.String]
  rw [getElem?_of_getD values i (by omega), hget i, columnCells_reference cols i hi, href,
    nonEmptyCells_append, nonEmptyCells_cons_some i row post str hcell hne]

/-- C1, as amended, on the second column of `t(id INTEGER, name TEXT)`: the cell
`'a'` of the first row. -/
theorem FetchTableData_appends_string_cells_witness :
    ∃ values, sqliteTyped.FetchTableData ⟨"", "t"⟩ 10 =
        Except.ok (typedColumns.map ColumnType.Name, values) ∧
      values[1]? = some (nonEmptyCells 1 [] ++
        "a" :: nonEmptyCells 1 [[some "2", some ""], [some "3", none]]) :=
  FetchTableData_appends_string_cells.1 sqliteTyped ⟨"", "t"⟩ 10
    "SELECT * FROM t ORDER BY RANDOM() LIMIT 10" typedResult typedColumns []
    [[some "2", some ""], [some "3", none]] [some "1", some "a"] 1 "a" rfl rfl rfl rfl
    (by decide) (by decide) (Or.inr rfl) rfl (by decide)

/-- C1 as stated fails: on `t(id INTEGER, name TEXT)`, where the driver reports
the scan type `int64` for `id`, the cells `1`, `2`, `3` are neither null nor
empty and none of them is appended: the value list of `id` is empty. -/
theorem FetchTableData_skips_typed_column :
    sqliteTyped.FetchTableData ⟨"", "t"⟩ 10 = Except.ok (["id", "name"], [[], ["a"]]) ∧
    nonEmptyCells 0 tData = ["1", "2", "3"] ∧
    sqliteTyped.FetchTableData ⟨"", "t"⟩ 10 ≠
      Except.ok (["id", "name"], [["1", "2", "3"], ["a"]]) := by
  have h : sqliteTyped.FetchTableData ⟨"", "t"⟩ 10 = Except.ok (["id", "name"], [[], ["a"]]) :=
    rfl
  refine ⟨h, rfl, ?_⟩
  rw [h]
  intro hcontra
  have := congrArg Prod.snd (Except.ok.inj hcontra)
  simp at this

/-- C5. The statement text is fixed by the driver name, the extension probe,
the table and the limit: for `postgres` the block-sampling statement when the
probe counts an extension and the `LIMIT` statement when it counts none, both on
the quoted, qualified name; for `sqlite3` the `ORDER BY RANDOM()` statement on
the bare table name; for every other driver the `LIMIT` statement on
`schema.name`; and that text is the one passed to `Query`. -/
theorem FetchTableData_sql_text (a : SqlAdapter) (t : table) (limit : Int) :
    (a.DB.DriverName = "postgres" → ∀ count : Int,
      a.DB.QueryRowCount "SELECT COUNT(*) FROM pg_extension WHERE extname = 'tsm_system_rows'"
        = Except.ok count →
      0 < count →
      FetchTableData.sql a.DB t limit = Except.ok
        ("SELECT * FROM " ++ (quoteIdent t.Schema ++ "." ++ quoteIdent t.Name) ++
          " TABLESAMPLE SYSTEM_ROWS(" ++ toString limit ++ ")")) ∧
    (a.DB.DriverName = "postgres" → ∀ count : Int,
      a.DB.QueryRowCount "SELECT COUNT(*) FROM pg_extension WHERE extname = 'tsm_system_rows'"
        = Except.ok count →
      count ≤ 0 →
      FetchTableData.sql a.DB t limit = Except.ok
        ("SELECT * FROM " ++ (quoteIdent t.Schema ++ "." ++ quoteIdent t.Name) ++
          " LIMIT " ++ toString limit)) ∧
    (a.DB.DriverName = "sqlite3" →
      FetchTableData.sql a.DB t limit = Except.ok
        ("SELECT * FROM " ++ t.Name ++ " ORDER BY RANDOM() LIMIT " ++ toString limit)) ∧
    (a.DB.DriverName ≠ "postgres" → a.DB.DriverName ≠ "sqlite3" →
      FetchTableData.sql a.DB t limit = Except.ok
        ("SELECT * FROM " ++ (t.Schema ++ "." ++ t.Name) ++ " LIMIT " ++ toString limit)) ∧
    (∀ sql, FetchTableData.sql a.DB t limit = Except.ok sql →
      a.FetchTableData t limit =
        match a.DB.Query sql with
        | Except.error err => Except.error (AbortError.query err)
        | Except.ok rows => readRows rows) := by
  refine ⟨?_, ?_, ?_, ?_, ?_⟩
  · intro hd count hc hpos
    simp only [FetchTableData.sql, hd, if_true, tsmSystemRowsSupported, hc]
    have : decide (count > 0) = true := decide_eq_true hpos
    simp only [this, Sprintf_sample]
  · intro hd count hc hle
    simp only [FetchTableData.sql, hd, if_true, tsmSystemRowsSupported, hc]
    have : decide (count > 0) = false := decide_eq_false (by omega)
    simp only [this, Sprintf_limit]
  · intro hd
    have e1 : ¬ ("sqlite3" = "postgres") := by decide
    simp only [FetchTableData.sql, hd, if_neg e1, if_true, Sprintf_random]
  · intro h1 h2
    simp only [FetchTableData.sql, if_neg h1, if_neg h2, Sprintf_limit]
  · intro sql hsql
    simp only [SqlAdapter.FetchTableData, hsql]

/-- C5, on the table `public.t` with limit 10: PostgreSQL with and without the
extension, SQLite and MySQL. -/
theorem FetchTableData_sql_text_witness :
    FetchTableData.sql postgresSampling.DB ⟨"public", "t"⟩ 10 =
      Except.ok "SELECT * FROM \"public\".\"t\" TABLESAMPLE SYSTEM_ROWS(10)" ∧
    FetchTableData.sql postgresPlain.DB ⟨"public", "t"⟩ 10 =
      Except.ok "SELECT * FROM \"public\".\"t\" LIMIT 10" ∧
    FetchTableData.sql sqliteUntyped.DB ⟨"public", "t"⟩ 10 =
      Except.ok "SELECT * FROM t ORDER BY RANDOM() LIMIT 10" ∧
    FetchTableData.sql mysqlServer.DB ⟨"public", "t"⟩ 10 =
      Except.ok "SELECT * FROM public.t LIMIT 10" ∧
    sqliteUntyped.FetchTableData ⟨"public", "t"⟩ 10 = readRows untypedResult :=
  ⟨(FetchTableData_sql_text postgresSampling ⟨"public", "t"⟩ 10).1 rfl 1 rfl (by decide),
   (FetchTableData_sql_text postgresPlain ⟨"public", "t"⟩ 10).2.1 rfl 0 rfl (by decide),
   (FetchTableData_sql_text sqliteUntyped ⟨"public", "t"⟩ 10).2.2.1 rfl,
   (FetchTableData_sql_text mysqlServer ⟨"public", "t"⟩ 10).2.2.2.1 (by decide) (by decide),
   (FetchTableData_sql_text sqliteUntyped ⟨"public", "t"⟩ 10).2.2.2.2
     "SELECT * FROM t ORDER BY RANDOM() LIMIT 10" rfl⟩

/-- C6. `quoteIdent s` is a double quote, then `s` with every double quote
doubled and every other character kept, then a double quote; and the table
reference of the PostgreSQL statements is `quoteIdent schema`, a dot and
`quoteIdent name`. -/
theorem quoteIdent_doubles_quotes (s : String) (t : table) :
    (quoteIdent s).data =
      '"' :: s.data.flatMap (fun c => if c = '"' then ['"', '"'] else [c]) ++ ['"'] ∧
    (quoteIdent t.Schema ++ "." ++ quoteIdent t.Name).data =
      ('"' :: t.Schema.data.flatMap (fun c => if c = '"' then ['"', '"'] else [c]) ++ ['"'])
        ++ '.' ::
      ('"' :: t.Name.data.flatMap (fun c => if c = '"' then ['"', '"'] else [c]) ++ ['"']) ∧
    (∀ (db : DB) (limit : Int) (sql : String), db.DriverName = "postgres" →
      FetchTableData.sql db t limit = Except.ok sql →
      ∃ rest, sql = "SELECT * FROM " ++ (quoteIdent t.Schema ++ "." ++ quoteIdent t.Name) ++ rest)
    := by
  refine ⟨?_, ?_, ?_⟩
  · simp [quoteIdent, pq.QuoteIdentifier, doubleQuotes_eq]
  · simp [quoteIdent, pq.QuoteIdentifier, doubleQuotes_eq, String.data_append]
  · intro db limit sql hd hsql
    simp only [FetchTableData.sql, hd, if_true] at hsql
    cases hp : tsmSystemRowsSupported db with
    | error err => simp [hp] at hsql
    | ok b =>
      cases b with
      | true =>
        simp only [hp, Sprintf_sample] at hsql
        refine ⟨" TABLESAMPLE SYSTEM_ROWS(" ++ toString limit ++ ")", ?_⟩
        rw [← Except.ok.inj hsql]
        simp [String.append_assoc]
      | false =>
        simp only [hp, Sprintf_limit] at hsql
        refine ⟨" LIMIT " ++ toString limit, ?_⟩
        rw [← Except.ok.inj hsql]
        simp [String.append_assoc]

/-- C6, on the identifier `we"ird` and the table `public.t`. -/
theorem quoteIdent_doubles_quotes_witness :
    quoteIdent "we\"ird" = "\"we\"\"ird\"" ∧
    ∃ rest, "SELECT * FROM \"public\".\"t\" TABLESAMPLE SYSTEM_ROWS(10)" =
      "SELECT * FROM " ++ (quoteIdent "public" ++ "." ++ quoteIdent "t") ++ rest :=
  ⟨String.ext (quoteIdent_doubles_quotes "we\"ird" ⟨"public", "t"⟩).1,
    (quoteIdent_doubles_quotes "we\"ird" ⟨"public", "t"⟩).2.2 postgresSampling.DB 10
      "SELECT * FROM \"public\".\"t\" TABLESAMPLE SYSTEM_ROWS(10)" rfl rfl⟩

/-- C7, the failing input. The result set of `t` breaks after its first row
(`rows.Next()` returns false, `rows.Err()` holds the failure): the call returns
the one row it read as its result and reports no failure. -/
theorem FetchTableData_ignores_iteration_error :
    brokenResult.Err = some "driver: bad connection" ∧
    sqliteBroken.FetchTableData ⟨"", "t"⟩ 10 = Except.ok (["id", "name"], [["1"], ["a"]]) :=
  ⟨rfl, rfl⟩

/-- C9. No returned table is in a system schema of the dialect: for `mysql`
none of `information_schema`, `mysql`, `performance_schema`; for every driver
other than `sqlite3` and `mysql` none of `information_schema`, `pg_catalog`; for
`sqlite3` the table `sqlite_sequence` is not returned and every schema is empty;
and a MySQL server whose databases are `information_schema`, `mysql`,
`performance_schema` and `appdb` yields tables of `appdb` only. -/
theorem FetchTables_excludes_system_schemas (a : SqlAdapter) (tables : List table)
    (h : a.FetchTables = Except.ok tables) :
    (a.DB.DriverName = "mysql" →
      ∀ t ∈ tables, t.Schema ∉ ["information_schema", "mysql", "performance_schema"]) ∧
    (a.DB.DriverName ≠ "sqlite3" → a.DB.DriverName ≠ "mysql" →
      ∀ t ∈ tables, t.Schema ∉ ["information_schema", "pg_catalog"]) ∧
    (a.DB.DriverName = "sqlite3" →
      ∀ t ∈ tables, t.Name ≠ "sqlite_sequence" ∧ t.Schema = "") ∧
    (a.DB.DriverName = "mysql" →
      (∀ r ∈ a.DB.information_schema_tables, r.table_schema ∈
        ["information_schema", "mysql", "performance_schema", "appdb"]) →
      ∀ t ∈ tables, t.Schema = "appdb") := by
  obtain ⟨hsqlite, hmysql, hother⟩ := FetchTables_inv a tables h
  refine ⟨fun hd t ht => ?_, fun h1 h2 t ht => ?_, fun hd t ht => ?_, fun hd hall t ht => ?_⟩
  · rw [hmysql hd] at ht
    exact (mem_informationSchemaTables _ _ t ht).1
  · rw [hother h1 h2] at ht
    exact (mem_informationSchemaTables _ _ t ht).1
  · rw [hsqlite hd] at ht
    exact ⟨(mem_sqliteTables _ t ht).2, (mem_sqliteTables _ t ht).1⟩
  · rw [hmysql hd] at ht
    obtain ⟨hex, r, hr, hrs, -⟩ := mem_informationSchemaTables _ _ t ht
    have := hall r hr
    rw [hrs] at this
    simp only [List.mem_cons, List.mem_singleton, List.not_mem_nil, or_false] at this hex
    tauto

set_option maxRecDepth 100000 in
/-- C9, on a MySQL server with the four databases, a SQLite file that holds
`sqlite_sequence` and a PostgreSQL server. -/
theorem FetchTables_excludes_system_schemas_witness :
    (mysqlServer.FetchTables = Except.ok [⟨"appdb", "orders"⟩, ⟨"appdb", "users"⟩] ∧
      (∀ t ∈ [(⟨"appdb", "orders"⟩ : table), ⟨"appdb", "users"⟩],
        t.Schema ∉ ["information_schema", "mysql", "performance_schema"]) ∧
      (∀ t ∈ [(⟨"appdb", "orders"⟩ : table), ⟨"appdb", "users"⟩], t.Schema = "appdb")) ∧
    (sqliteFile.FetchTables = Except.ok [⟨"", "accounts"⟩, ⟨"", "users"⟩] ∧
      ∀ t ∈ [(⟨"", "accounts"⟩ : table), ⟨"", "users"⟩],
        t.Name ≠ "sqlite_sequence" ∧ t.Schema = "") ∧
    (postgresServer.FetchTables = Except.ok [⟨"public", "users"⟩] ∧
      ∀ t ∈ [(⟨"public", "users"⟩ : table)],
        t.Schema ∉ ["information_schema", "pg_catalog"]) :=
  ⟨⟨rfl,
    (FetchTables_excludes_system_schemas mysqlServer
      [⟨"appdb", "orders"⟩, ⟨"appdb", "users"⟩] rfl).1 rfl,
    (FetchTables_excludes_system_schemas mysqlServer
      [⟨"appdb", "orders"⟩, ⟨"appdb", "users"⟩] rfl).2.2.2 rfl (by decide)⟩,
   ⟨rfl,
    (FetchTables_excludes_system_schemas sqliteFile
      [⟨"", "accounts"⟩, ⟨"", "users"⟩] rfl).2.2.1 rfl⟩,
   ⟨rfl,
    (FetchTables_excludes_system_schemas postgresServer
      [⟨"public", "users"⟩] rfl).2.1 (by decide) (by decide)⟩⟩

end Pdscan
